import Mathlib

/-!
# Verification of the flood status service (jdtw/flood)

A shallow embedding of the status-determination core of the flood service:
the feed-item selection loop, the manual override, the traffic-analyzer
cache and response parsing (`TrafficAnalyzer.IsRoadOpen` in the genai
package), and the merge policy of `handler.flood` in
`internal/server/server.go`.

Modelling conventions:
* Go strings are modelled as `List Char` (`Str`); `str` injects a Lean
  string literal. `strings.Contains`, `strings.HasPrefix`,
  `strings.TrimSpace`, `strings.ToUpper` and the first-colon split are
  reproduced as executable functions on `Str` (`goToUpper` maps
  `Char.toUpper` per character, which models Go's uppercase mapping on the
  ASCII range relevant here).
* `time.Time` is modelled as `Nat` (an absolute instant, `0` being the Go
  zero time, so `IsZero` becomes `= 0`); `time.Since lastCheck` becomes
  truncated subtraction `now - lastCheck`, which selects the same branch
  as Go for every ordering of `now` and `lastCheck`.
* The rendered `Published` template field is modelled as the underlying
  `Option Nat` timestamp (`none` for the empty string; formatting via
  `Format(time.RFC1123)` is an injective rendering and carries no
  decision logic).
* Network effects are inputs: the feed fetch is an `Except` value, the
  number of successfully fetched camera images is a `Nat`, and the vision
  model call is a `ModelResult`. A computation "performs no fetch / no
  model call" is expressed as independence from these inputs.
-/

namespace Flood

/-- Go strings as lists of characters. -/
abbrev Str := List Char

/-- Inject a Lean string literal into the `Str` model. -/
def str (s : String) : Str := s.data

/-- `strings.Contains s sub`: unanchored, case-sensitive substring test. -/
def goContains : Str → Str → Bool
  | [], sub => sub.isPrefixOf ([] : Str)
  | c :: rest, sub => sub.isPrefixOf (c :: rest) || goContains rest sub

/-- `strings.TrimSpace` (leading part): drop leading whitespace. -/
def goTrimLeft (s : Str) : Str := s.dropWhile Char.isWhitespace

/-- `strings.TrimSpace`: drop leading and trailing whitespace. -/
def goTrimSpace (s : Str) : Str :=
  ((goTrimLeft s).reverse.dropWhile Char.isWhitespace).reverse

/-- `strings.ToUpper`, character by character. -/
def goToUpper (s : Str) : Str := s.map Char.toUpper

/-- The suffix of `s` strictly after the first occurrence of `c`, or `none`
if `c` does not occur: models `strings.Index` followed by `s[idx+1:]`. -/
def afterChar (c : Char) : Str → Option Str
  | [] => none
  | x :: xs => if x = c then some xs else afterChar c xs

/-- A syndication feed item as consumed by the server (`gofeed.Item`):
title, link, and the optional parsed publication timestamp. -/
structure FeedItem where
  title : Str
  link : Str
  publishedParsed : Option Nat
deriving DecidableEq, Repr

/-- `templateData` from `internal/server/server.go`: the status record
handed to the HTML template. -/
structure TemplateData where
  Road : Str
  Open : Bool
  Detail : Str
  Link : Str
  Published : Option Nat
deriving DecidableEq, Repr

/-- The manual override tri-state from `internal/server/server.go`. -/
inductive Override
  | None
  | Open
  | Closed
deriving DecidableEq, BEq, Repr

/-- The record the feed loop starts from: road open by default, all other
fields empty (`templateData{Open: true, Road: h.road}`). -/
def defaultTD (road : Str) : TemplateData :=
  { Road := road, Open := true, Detail := [], Link := [], Published := none }

/-- The record derived from a matched feed item: open unless the title
starts with the literal `"Closed"`; detail, link and timestamp taken from
the item. -/
def matchedTD (road : Str) (i : FeedItem) : TemplateData :=
  { Road := road
    Open := !(str "Closed").isPrefixOf i.title
    Detail := i.title
    Link := i.link
    Published := i.publishedParsed }

/-- The feed-item selection loop of `handler.flood` (server.go lines
145-156): scan the items in feed order and stop at the first whose title
contains the road substring; if none matches, keep the default record. -/
def feedTemplateData (road : Str) : List FeedItem → TemplateData
  | [] => defaultTD road
  | i :: rest =>
    if goContains i.title road then matchedTD road i
    else feedTemplateData road rest

/-- The first feed item (in feed order) whose title contains the road
substring, if any. -/
def firstMatch (road : Str) : List FeedItem → Option FeedItem
  | [] => none
  | i :: rest => if goContains i.title road then some i else firstMatch road rest

/-- The analyzer's cache, the fields `lastCheck`, `cachedOpen`,
`cachedDetail` of `TrafficAnalyzer` guarded by its mutex. -/
structure AnalyzerCache where
  lastCheck : Nat
  cachedOpen : Bool
  cachedDetail : Str
deriving DecidableEq, Repr

/-- The configuration of a `TrafficAnalyzer`: whether the model client is
non-nil, the model name and the camera URL list. -/
structure TrafficAnalyzer where
  clientConfigured : Bool
  model : Str
  cameraURLs : List Str
deriving DecidableEq, Repr

/-- Outcome of the single `GenerateContent` call: transport error, a
response with no usable content, or the reply text of the first part. -/
inductive ModelResult
  | apiError
  | emptyResponse
  | text (t : Str)
deriving DecidableEq, Repr

/-- The cache TTL: 15 minutes, in seconds. -/
def fifteenMinutes : Nat := 15 * 60

/-- The Go return value of `IsRoadOpen`: `(bool, string, time.Time, error)`
with the error as `Option Str` (`none` = nil error). -/
abbrev IsRoadOpenResult := Bool × Str × Nat × Option Str

/-- Parse the vision-model reply (genai part lines 118-126): trim it,
closed iff the uppercased text starts with `"CLOSED"`, detail is the
trimmed text after the first colon (the whole trimmed text when there is
no colon). Returns `(isOpen, detail)`. -/
def parseModelReply (t : Str) : Bool × Str :=
  let text := goTrimSpace t
  let isOpen := !(str "CLOSED").isPrefixOf (goToUpper text)
  let detail :=
    match afterChar ':' text with
    | some rest => goTrimSpace rest
    | none => text
  (isOpen, detail)

/-- `TrafficAnalyzer.IsRoadOpen` as a state transition on the cache.
`ta = none` models a nil receiver; `fetchedImages` is the number of camera
fetches that succeeded (the image parts appended after the one text
prompt, so Go's `len(parts) <= 1` is `fetchedImages = 0`); `modelResult`
is the outcome of the single model call.  Returns the Go result tuple and
the cache after the call. -/
def IsRoadOpen (ta : Option TrafficAnalyzer) (st : AnalyzerCache) (now : Nat)
    (fetchedImages : Nat) (modelResult : ModelResult) :
    IsRoadOpenResult × AnalyzerCache :=
  match ta with
  | none => ((false, [], 0, some (str "AI client not initialized")), st)
  | some a =>
    if a.clientConfigured = false then
      ((false, [], 0, some (str "AI client not initialized")), st)
    else if now - st.lastCheck < fifteenMinutes && !(st.lastCheck == 0) then
      ((st.cachedOpen, st.cachedDetail, st.lastCheck, none), st)
    else if fetchedImages == 0 then
      ((false, [], 0, some (str "no images could be fetched")), st)
    else
      match modelResult with
      | .apiError => ((false, [], 0, some (str "gemini api error")), st)
      | .emptyResponse =>
        ((false, [], 0, some (str "empty response from gemini")), st)
      | .text t =>
        let parsed := parseModelReply t
        ((parsed.1, parsed.2, now, none), ⟨now, parsed.1, parsed.2⟩)

/-- The status record built in the AI-override branch of `handler.flood`
(server.go lines 163-168): AI verdict, detail prefixed to mark it as
AI-sourced, timestamp = analysis time, link dropped. -/
def aiTD (road : Str) (op : Bool) (detail : Str) (updated : Nat) : TemplateData :=
  { Road := road
    Open := op
    Detail := str "✨ Analysis: " ++ detail
    Link := []
    Published := some updated }

/-- The merge policy of `handler.flood` (server.go lines 117-176) at the
status-record level. `feed` is the result of the feed fetch+parse;
`analyzer` is `none` when `h.analyzer == nil` (no analyzer call is made)
and otherwise the result tuple of the `IsRoadOpen` call. The override
branch is evaluated before any feed or analyzer input is consulted. -/
def floodResponse (override : Override) (road : Str)
    (feed : Except Str (List FeedItem))
    (analyzer : Option IsRoadOpenResult) : Except Str TemplateData :=
  if override != Override.None then
    Except.ok { Road := road, Open := override == Override.Open,
                Detail := [], Link := [], Published := none }
  else
    match feed with
    | Except.error e => Except.error (str "failed to fetch the road alert feed: " ++ e)
    | Except.ok items =>
      let td := feedTemplateData road items
      match analyzer with
      | none => Except.ok td
      | some (op, detail, updated, err) =>
        if err == none && td.Open != op then
          Except.ok (aiTD road op detail updated)
        else
          Except.ok td

/-- Case-insensitive "starts with", following the spec's words: compare
the two strings after uppercasing both. -/
def startsWithCI (p s : Str) : Bool := (goToUpper p).isPrefixOf (goToUpper s)

/-- A sequence of `IsRoadOpen` calls on one analyzer, each call supplying
its clock reading, fetched-image count and model outcome; returns the
final cache. -/
def analyzerRun (ta : Option TrafficAnalyzer) :
    List (Nat × Nat × ModelResult) → AnalyzerCache → AnalyzerCache
  | [], st => st
  | (now, f, m) :: calls, st =>
    analyzerRun ta calls (IsRoadOpen ta st now f m).2

deriving instance DecidableEq for Except

/-! ## Helper lemmas -/

/-- `feedTemplateData` is the record of the first matching item, or the
default record when no item matches. -/
theorem feedTemplateData_firstMatch (road : Str) (items : List FeedItem) :
    feedTemplateData road items =
      (match firstMatch road items with
       | none => defaultTD road
       | some i => matchedTD road i) := by
  induction items with
  | nil => rfl
  | cons i rest ih =>
    by_cases h : goContains i.title road = true
    · simp [feedTemplateData, firstMatch, h]
    · simp only [Bool.not_eq_true] at h
      simp [feedTemplateData, firstMatch, h, ih]

theorem firstMatch_of_no_match (road : Str) (items : List FeedItem)
    (h : ∀ i ∈ items, goContains i.title road = false) :
    firstMatch road items = none := by
  induction items with
  | nil => rfl
  | cons i rest ih =>
    simp [firstMatch, h i (by simp)]
    exact ih fun j hj => h j (by simp [hj])

theorem firstMatch_append (road : Str) (pre : List FeedItem) (m : FeedItem)
    (post : List FeedItem)
    (hpre : ∀ i ∈ pre, goContains i.title road = false)
    (hm : goContains m.title road = true) :
    firstMatch road (pre ++ m :: post) = some m := by
  induction pre with
  | nil => simp [firstMatch, hm]
  | cons j rest ih =>
    simp [firstMatch, hpre j (by simp)]
    exact ih fun i hi => hpre i (by simp [hi])

theorem isPrefixOf_closed_eq_false (t : Str)
    (h : (str "Open").isPrefixOf t = true ∨ (str "Restricted").isPrefixOf t = true) :
    (str "Closed").isPrefixOf t = false := by
  cases t with
  | nil => rcases h with h | h <;> simp [str, List.isPrefixOf] at h
  | cons c rest =>
    rcases h with h | h <;>
      simp only [str, List.isPrefixOf, Bool.and_eq_true, beq_iff_eq] at h ⊢ <;>
      simp [← h.1]

theorem afterChar_of_not_mem (c : Char) (l : Str) (h : c ∉ l) :
    afterChar c l = none := by
  induction l with
  | nil => rfl
  | cons x xs ih =>
    have hx : ¬ x = c := fun he => h (he ▸ List.mem_cons_self x xs)
    simp [afterChar, hx]
    exact ih fun hm => h (List.mem_cons_of_mem x hm)

theorem afterChar_append_first (c : Char) (pre post : Str) (h : c ∉ pre) :
    afterChar c (pre ++ c :: post) = some post := by
  induction pre with
  | nil => simp [afterChar]
  | cons x xs ih =>
    have hx : ¬ x = c := fun he => h (he ▸ List.mem_cons_self x xs)
    simp [afterChar, hx]
    exact ih fun hm => h (List.mem_cons_of_mem x hm)

/-! ## Claim theorems -/

/-- C3: if no item's title contains the road substring, the feed-derived
record is open with empty detail; otherwise the record is derived from
the first item (in feed order) whose title contains the substring,
regardless of its position among non-matching items and regardless of any
later matching items. -/
theorem feed_first_match_selection :
    (∀ (road : Str) (items : List FeedItem),
      (∀ i ∈ items, goContains i.title road = false) →
      (feedTemplateData road items).Open = true ∧
        (feedTemplateData road items).Detail = []) ∧
    (∀ (road : Str) (pre : List FeedItem) (m : FeedItem) (post : List FeedItem),
      (∀ i ∈ pre, goContains i.title road = false) →
      goContains m.title road = true →
      feedTemplateData road (pre ++ m :: post) = matchedTD road m) := by
  constructor
  · intro road items h
    rw [feedTemplateData_firstMatch, firstMatch_of_no_match road items h]
    exact ⟨rfl, rfl⟩
  · intro road pre m post hpre hm
    rw [feedTemplateData_firstMatch, firstMatch_append road pre m post hpre hm]

theorem feed_first_match_selection_witness :
    ((∀ i ∈ ([⟨str "Open - Some other road", str "l0", none⟩] : List FeedItem),
        goContains i.title (str "124th") = false) ∧
      (feedTemplateData (str "124th") [⟨str "Open - Some other road", str "l0", none⟩]).Open = true ∧
      (feedTemplateData (str "124th") [⟨str "Open - Some other road", str "l0", none⟩]).Detail = []) ∧
    feedTemplateData (str "124th")
        ([⟨str "Open - Some other road", str "l0", none⟩] ++
          ⟨str "Closed - 124th", str "l1", some 5⟩ :: [⟨str "Open - 124th", str "l2", none⟩])
      = matchedTD (str "124th") ⟨str "Closed - 124th", str "l1", some 5⟩ :=
  ⟨⟨by decide,
    feed_first_match_selection.1 (str "124th")
      [⟨str "Open - Some other road", str "l0", none⟩] (by decide)⟩,
    feed_first_match_selection.2 (str "124th")
      [⟨str "Open - Some other road", str "l0", none⟩]
      ⟨str "Closed - 124th", str "l1", some 5⟩
      [⟨str "Open - 124th", str "l2", none⟩] (by decide) (by decide)⟩

/-- C4: for the item selected as the match, the derived open flag is
false iff the item's title starts with the literal `"Closed"`
(case-sensitive); a title starting with `"Open"` or `"Restricted"` yields
open = true. -/
theorem matched_open_iff_closed_prefixed :
    ∀ (road : Str) (items : List FeedItem) (i : FeedItem),
      firstMatch road items = some i →
      ((feedTemplateData road items).Open = false ↔
        (str "Closed").isPrefixOf i.title = true) ∧
      (((str "Open").isPrefixOf i.title = true ∨
          (str "Restricted").isPrefixOf i.title = true) →
        (feedTemplateData road items).Open = true) := by
  intro road items i h
  rw [feedTemplateData_firstMatch, h]
  constructor
  · simp [matchedTD]
  · intro hop
    simp [matchedTD, isPrefixOf_closed_eq_false i.title hop]

theorem matched_open_iff_closed_prefixed_witness :
    firstMatch (str "124th") [⟨str "Closed - 124th", str "l1", none⟩]
        = some ⟨str "Closed - 124th", str "l1", none⟩ ∧
    ((feedTemplateData (str "124th") [⟨str "Closed - 124th", str "l1", none⟩]).Open = false ↔
      (str "Closed").isPrefixOf (str "Closed - 124th") = true) :=
  ⟨by decide,
    (matched_open_iff_closed_prefixed (str "124th")
      [⟨str "Closed - 124th", str "l1", none⟩]
      ⟨str "Closed - 124th", str "l1", none⟩ (by decide)).1⟩

/-- C5 counterexample: an item whose title contains the road substring
but starts with an unrecognized prefix (`"Flooding on 124th"`) is not
skipped: it is selected as the match and determines the status
(open = true, its title as detail), even though a later item says
`"Closed - 124th"`. -/
theorem non_authoritative_skipped_cex :
    feedTemplateData (str "124th")
        [⟨str "Flooding on 124th", str "l1", none⟩,
         ⟨str "Closed - 124th", str "l2", none⟩]
      = ⟨str "124th", true, str "Flooding on 124th", str "l1", none⟩ ∧
    (feedTemplateData (str "124th")
        [⟨str "Flooding on 124th", str "l1", none⟩,
         ⟨str "Closed - 124th", str "l2", none⟩]).Open ≠
      (matchedTD (str "124th") ⟨str "Closed - 124th", str "l2", none⟩).Open := by
  decide

/-- C5 amended: an item whose title contains the road substring is NOT
skipped whatever its prefix: when it is the first substring match in feed
order it is selected, and any prefix other than the literal `"Closed"`
(including prefixes other than `"Open"`/`"Closed"`/`"Restricted"`) yields
open = true with the item's title as the record's detail. -/
theorem non_authoritative_item_selected :
    ∀ (road : Str) (pre : List FeedItem) (i : FeedItem) (post : List FeedItem),
      (∀ j ∈ pre, goContains j.title road = false) →
      goContains i.title road = true →
      (str "Closed").isPrefixOf i.title = false →
      feedTemplateData road (pre ++ i :: post) = matchedTD road i ∧
        (matchedTD road i).Open = true := by
  intro road pre i post hpre hi hcl
  refine ⟨?_, ?_⟩
  · rw [feedTemplateData_firstMatch, firstMatch_append road pre i post hpre hi]
  · simp [matchedTD, hcl]

theorem non_authoritative_item_selected_witness :
    feedTemplateData (str "124th")
        (([] : List FeedItem) ++
          ⟨str "Flooding on 124th", str "l1", none⟩ ::
            [⟨str "Closed - 124th", str "l2", none⟩])
      = matchedTD (str "124th") ⟨str "Flooding on 124th", str "l1", none⟩ ∧
    (matchedTD (str "124th") ⟨str "Flooding on 124th", str "l1", none⟩).Open = true :=
  non_authoritative_item_selected (str "124th") []
    ⟨str "Flooding on 124th", str "l1", none⟩
    [⟨str "Closed - 124th", str "l2", none⟩]
    (by decide) (by decide) (by decide)

/-- C1: with no override, a fetched feed and a configured analyzer, a
verdict returned without error that disagrees with the feed-derived open
flag replaces the record entirely with the AI-derived one (AI verdict,
AI detail prefixed as AI-sourced, timestamp = analysis time); an analyzer
error or an agreeing verdict leaves the feed-derived record unchanged. -/
theorem merge_ai_disagreement_policy :
    ∀ (road : Str) (items : List FeedItem) (op : Bool) (detail : Str)
      (updated : Nat) (err : Option Str),
      (err = none → (feedTemplateData road items).Open ≠ op →
        floodResponse Override.None road (Except.ok items)
            (some (op, detail, updated, err))
          = Except.ok (aiTD road op detail updated)) ∧
      ((err ≠ none ∨ (feedTemplateData road items).Open = op) →
        floodResponse Override.None road (Except.ok items)
            (some (op, detail, updated, err))
          = Except.ok (feedTemplateData road items)) := by
  intro road items op detail updated err
  constructor
  · intro he hne
    subst he
    simp [floodResponse, hne]
    intro hcontra
    exact absurd hcontra (by decide)
  · intro h
    rcases h with he | hagree
    · rcases err with _ | e
      · exact absurd rfl he
      · simp [floodResponse]
        intro hcontra
        exact absurd hcontra (by decide)
    · simp [floodResponse, hagree]
      intro hcontra
      exact absurd hcontra (by decide)

theorem merge_ai_disagreement_policy_witness :
    ((none : Option Str) = none ∧
      (feedTemplateData (str "124th")
          [⟨str "Closed - 124th", str "l1", some 5⟩]).Open ≠ true ∧
      floodResponse Override.None (str "124th")
          (Except.ok [⟨str "Closed - 124th", str "l1", some 5⟩])
          (some (true, str "road is clear", 42, none))
        = Except.ok (aiTD (str "124th") true (str "road is clear") 42)) ∧
    ((some (str "gemini api error") : Option Str) ≠ none ∧
      floodResponse Override.None (str "124th")
          (Except.ok [⟨str "Closed - 124th", str "l1", some 5⟩])
          (some (false, [], 0, some (str "gemini api error")))
        = Except.ok (feedTemplateData (str "124th")
            [⟨str "Closed - 124th", str "l1", some 5⟩])) :=
  ⟨⟨rfl, by decide,
    (merge_ai_disagreement_policy (str "124th")
        [⟨str "Closed - 124th", str "l1", some 5⟩]
        true (str "road is clear") 42 none).1 rfl (by decide)⟩,
    ⟨by decide,
      (merge_ai_disagreement_policy (str "124th")
          [⟨str "Closed - 124th", str "l1", some 5⟩]
          false [] 0 (some (str "gemini api error"))).2 (Or.inl (by decide))⟩⟩

/-- C2: with the override set, the returned record has
open = (override = ForceOpen) and empty detail/link/timestamp, for every
feed-fetch result and every analyzer result (the computation does not
depend on either). -/
theorem override_short_circuits :
    ∀ (ov : Override) (road : Str) (feed : Except Str (List FeedItem))
      (analyzer : Option IsRoadOpenResult),
      ov ≠ Override.None →
      floodResponse ov road feed analyzer
        = Except.ok { Road := road, Open := ov == Override.Open,
                      Detail := [], Link := [], Published := none } := by
  intro ov road feed analyzer h
  cases ov with
  | None => exact absurd rfl h
  | Open => rfl
  | Closed => rfl

theorem override_short_circuits_witness :
    Override.Closed ≠ Override.None ∧
    floodResponse Override.Closed (str "124th") (Except.error (str "boom"))
        (some (true, str "all clear", 7, none))
      = Except.ok { Road := str "124th", Open := Override.Closed == Override.Open,
                    Detail := [], Link := [], Published := none } :=
  ⟨by decide,
    override_short_circuits Override.Closed (str "124th")
      (Except.error (str "boom")) (some (true, str "all clear", 7, none))
      (by decide)⟩

/-- C6: within 15 minutes of a previous successful check (non-zero
`lastCheck`), a configured analyzer returns the identical cached verdict
(open flag, detail, cached timestamp, nil error), leaves the cache
unchanged, and the result is independent of the image-fetch and
model-call inputs (no fetch or model call is consulted). -/
theorem cache_hit_within_ttl :
    ∀ (a : TrafficAnalyzer) (st : AnalyzerCache) (now f₁ f₂ : Nat)
      (m₁ m₂ : ModelResult),
      a.clientConfigured = true →
      st.lastCheck ≠ 0 →
      now - st.lastCheck < fifteenMinutes →
      IsRoadOpen (some a) st now f₁ m₁
          = ((st.cachedOpen, st.cachedDetail, st.lastCheck, none), st) ∧
      IsRoadOpen (some a) st now f₁ m₁ = IsRoadOpen (some a) st now f₂ m₂ := by
  intro a st now f₁ f₂ m₁ m₂ hc hz hlt
  have key : ∀ (f : Nat) (m : ModelResult),
      IsRoadOpen (some a) st now f m
        = ((st.cachedOpen, st.cachedDetail, st.lastCheck, none), st) := by
    intro f m
    simp [IsRoadOpen, hc, hlt, hz]
  exact ⟨key f₁ m₁, (key f₁ m₁).trans (key f₂ m₂).symm⟩

theorem cache_hit_within_ttl_witness :
    (⟨true, str "gemini-pro", []⟩ : TrafficAnalyzer).clientConfigured = true ∧
    (100 : Nat) ≠ 0 ∧
    (400 : Nat) - 100 < fifteenMinutes ∧
    IsRoadOpen (some ⟨true, str "gemini-pro", []⟩) ⟨100, false, str "flooded"⟩ 400 3 ModelResult.apiError
        = ((false, str "flooded", 100, none), ⟨100, false, str "flooded"⟩) ∧
    IsRoadOpen (some ⟨true, str "gemini-pro", []⟩) ⟨100, false, str "flooded"⟩ 400 3 ModelResult.apiError
        = IsRoadOpen (some ⟨true, str "gemini-pro", []⟩) ⟨100, false, str "flooded"⟩ 400 0 (ModelResult.text (str "OPEN: x")) :=
  ⟨rfl, by decide, by decide,
    (cache_hit_within_ttl ⟨true, str "gemini-pro", []⟩ ⟨100, false, str "flooded"⟩
      400 3 0 ModelResult.apiError (ModelResult.text (str "OPEN: x"))
      rfl (by decide) (by decide)).1,
    (cache_hit_within_ttl ⟨true, str "gemini-pro", []⟩ ⟨100, false, str "flooded"⟩
      400 3 0 ModelResult.apiError (ModelResult.text (str "OPEN: x"))
      rfl (by decide) (by decide)).2⟩

/-- C7: when the cache is not fresh and zero camera images are fetched,
the analysis fails with the "no images could be fetched" error, the cache
is left untouched, and the merger keeps the feed-derived record
unchanged. -/
theorem zero_images_error_keeps_feed :
    ∀ (a : TrafficAnalyzer) (st : AnalyzerCache) (now : Nat) (m : ModelResult)
      (road : Str) (items : List FeedItem),
      a.clientConfigured = true →
      (st.lastCheck = 0 ∨ fifteenMinutes ≤ now - st.lastCheck) →
      IsRoadOpen (some a) st now 0 m
          = ((false, [], 0, some (str "no images could be fetched")), st) ∧
      floodResponse Override.None road (Except.ok items)
          (some (IsRoadOpen (some a) st now 0 m).1)
        = Except.ok (feedTemplateData road items) := by
  intro a st now m road items hc hstale
  have h1 : IsRoadOpen (some a) st now 0 m
      = ((false, [], 0, some (str "no images could be fetched")), st) := by
    rcases hstale with h | h
    · simp [IsRoadOpen, hc, h]
    · have hnotlt : ¬ (now - st.lastCheck < fifteenMinutes) := not_lt.mpr h
      simp [IsRoadOpen, hc, hnotlt]
  refine ⟨h1, ?_⟩
  rw [h1]
  simp [floodResponse]
  intro hcontra
  exact absurd hcontra (by decide)

theorem zero_images_error_keeps_feed_witness :
    (⟨true, str "gemini-pro", [str "http://cam"]⟩ : TrafficAnalyzer).clientConfigured = true ∧
    ((0 : Nat) = 0 ∨ fifteenMinutes ≤ (0 : Nat) - 0) ∧
    IsRoadOpen (some ⟨true, str "gemini-pro", [str "http://cam"]⟩) ⟨0, false, []⟩ 0 0 ModelResult.apiError
        = ((false, [], 0, some (str "no images could be fetched")), ⟨0, false, []⟩) ∧
    floodResponse Override.None (str "124th")
        (Except.ok [⟨str "Closed - 124th", str "l1", none⟩])
        (some (IsRoadOpen (some ⟨true, str "gemini-pro", [str "http://cam"]⟩) ⟨0, false, []⟩ 0 0 ModelResult.apiError).1)
      = Except.ok (feedTemplateData (str "124th")
          [⟨str "Closed - 124th", str "l1", none⟩]) :=
  ⟨rfl, Or.inl rfl,
    (zero_images_error_keeps_feed ⟨true, str "gemini-pro", [str "http://cam"]⟩
      ⟨0, false, []⟩ 0 ModelResult.apiError (str "124th")
      [⟨str "Closed - 124th", str "l1", none⟩] rfl (Or.inl rfl)).1,
    (zero_images_error_keeps_feed ⟨true, str "gemini-pro", [str "http://cam"]⟩
      ⟨0, false, []⟩ 0 ModelResult.apiError (str "124th")
      [⟨str "Closed - 124th", str "l1", none⟩] rfl (Or.inl rfl)).2⟩

/-- C8: the model reply is trimmed; the verdict is closed iff the trimmed
text case-insensitively starts with `"CLOSED"`; the detail is everything
after the first colon, trimmed, and the full trimmed text when no colon
is present. -/
theorem model_reply_parsing :
    ∀ raw : Str,
      ((parseModelReply raw).1 = false ↔
        startsWithCI (str "CLOSED") (goTrimSpace raw) = true) ∧
      (∀ pre post : Str, goTrimSpace raw = pre ++ ':' :: post → ':' ∉ pre →
        (parseModelReply raw).2 = goTrimSpace post) ∧
      (':' ∉ goTrimSpace raw → (parseModelReply raw).2 = goTrimSpace raw) := by
  intro raw
  refine ⟨?_, ?_, ?_⟩
  · have hup : goToUpper (str "CLOSED") = str "CLOSED" := by decide
    simp [parseModelReply, startsWithCI, hup]
  · intro pre post hsplit hpre
    simp only [parseModelReply, hsplit, afterChar_append_first ':' pre post hpre]
  · intro hnc
    simp only [parseModelReply, afterChar_of_not_mem ':' _ hnc]

theorem model_reply_parsing_witness :
    ((parseModelReply (str " Closed: water over roadway ")).1 = false ↔
      startsWithCI (str "CLOSED") (goTrimSpace (str " Closed: water over roadway ")) = true) ∧
    (goTrimSpace (str " Closed: water over roadway ")
        = str "Closed" ++ ':' :: str " water over roadway" ∧
      ':' ∉ str "Closed" ∧
      (parseModelReply (str " Closed: water over roadway ")).2
        = goTrimSpace (str " water over roadway")) ∧
    (':' ∉ goTrimSpace (str "OPEN all clear") ∧
      (parseModelReply (str "OPEN all clear")).2 = goTrimSpace (str "OPEN all clear")) :=
  ⟨(model_reply_parsing (str " Closed: water over roadway ")).1,
    ⟨by decide, by decide,
      (model_reply_parsing (str " Closed: water over roadway ")).2.1
        (str "Closed") (str " water over roadway") (by decide) (by decide)⟩,
    ⟨by decide,
      (model_reply_parsing (str "OPEN all clear")).2.2 (by decide)⟩⟩

/-- C9: on every call, `lastCheck` is monotonically non-decreasing; a call
that returns an error leaves the cache untouched; and the cache either
stays exactly as it was or is refreshed atomically (all three fields
together, from a successful analysis at the call's clock reading);
consequently `lastCheck` is non-decreasing across every sequence of
calls. -/
theorem cache_invariants :
    (∀ (ta : Option TrafficAnalyzer) (st : AnalyzerCache) (now f : Nat)
        (m : ModelResult),
      st.lastCheck ≤ (IsRoadOpen ta st now f m).2.lastCheck ∧
      ((IsRoadOpen ta st now f m).1.2.2.2 ≠ none →
        (IsRoadOpen ta st now f m).2 = st) ∧
      ((IsRoadOpen ta st now f m).2 = st ∨
        ∃ o d, (IsRoadOpen ta st now f m).1 = (o, d, now, none) ∧
          (IsRoadOpen ta st now f m).2
            = { lastCheck := now, cachedOpen := o, cachedDetail := d })) ∧
    (∀ (ta : Option TrafficAnalyzer) (calls : List (Nat × Nat × ModelResult))
        (st : AnalyzerCache),
      st.lastCheck ≤ (analyzerRun ta calls st).lastCheck) := by
  have step : ∀ (ta : Option TrafficAnalyzer) (st : AnalyzerCache) (now f : Nat)
      (m : ModelResult),
      st.lastCheck ≤ (IsRoadOpen ta st now f m).2.lastCheck ∧
      ((IsRoadOpen ta st now f m).1.2.2.2 ≠ none →
        (IsRoadOpen ta st now f m).2 = st) ∧
      ((IsRoadOpen ta st now f m).2 = st ∨
        ∃ o d, (IsRoadOpen ta st now f m).1 = (o, d, now, none) ∧
          (IsRoadOpen ta st now f m).2
            = { lastCheck := now, cachedOpen := o, cachedDetail := d }) := by
    intro ta st now f m
    cases ta with
    | none => simp [IsRoadOpen]
    | some a =>
      by_cases hc : a.clientConfigured = false
      · simp [IsRoadOpen, hc]
      · by_cases hfresh :
          (decide (now - st.lastCheck < fifteenMinutes) && !(st.lastCheck == 0)) = true
        · have h1 : IsRoadOpen (some a) st now f m
              = ((st.cachedOpen, st.cachedDetail, st.lastCheck, none), st) := by
            simp only [IsRoadOpen, if_neg hc, if_pos hfresh]
          simp [h1]
        · have hle : st.lastCheck ≤ now := by
            by_cases h0 : st.lastCheck = 0
            · omega
            · have hd : ¬ (now - st.lastCheck < fifteenMinutes) := by
                intro hlt
                exact hfresh (by simp [hlt, h0])
              rw [show fifteenMinutes = 900 from rfl] at hd
              omega
          by_cases hf : f = 0
          · subst hf
            have h1 : IsRoadOpen (some a) st now 0 m
                = ((false, [], 0, some (str "no images could be fetched")), st) := by
              simp only [IsRoadOpen, if_neg hc, if_neg hfresh]
              rfl
            simp [h1]
          · have hf' : ¬ ((f == 0) = true) := by simp [hf]
            cases m with
            | apiError =>
              have h1 : IsRoadOpen (some a) st now f ModelResult.apiError
                  = ((false, [], 0, some (str "gemini api error")), st) := by
                simp only [IsRoadOpen, if_neg hc, if_neg hfresh, if_neg hf']
              simp [h1]
            | emptyResponse =>
              have h1 : IsRoadOpen (some a) st now f ModelResult.emptyResponse
                  = ((false, [], 0, some (str "empty response from gemini")), st) := by
                simp only [IsRoadOpen, if_neg hc, if_neg hfresh, if_neg hf']
              simp [h1]
            | text t =>
              have h1 : IsRoadOpen (some a) st now f (ModelResult.text t)
                  = (((parseModelReply t).1, (parseModelReply t).2, now, none),
                      ⟨now, (parseModelReply t).1, (parseModelReply t).2⟩) := by
                simp only [IsRoadOpen, if_neg hc, if_neg hfresh, if_neg hf']
              refine ⟨?_, ?_, Or.inr ⟨(parseModelReply t).1, (parseModelReply t).2, by simp [h1], by simp [h1]⟩⟩
              · rw [h1]
                exact hle
              · intro hne
                simp [h1] at hne
  refine ⟨step, ?_⟩
  intro ta calls
  induction calls with
  | nil => intro st; simp [analyzerRun]
  | cons c rest ih =>
    intro st
    obtain ⟨now, f, m⟩ := c
    calc st.lastCheck ≤ (IsRoadOpen ta st now f m).2.lastCheck :=
        (step ta st now f m).1
      _ ≤ (analyzerRun ta rest (IsRoadOpen ta st now f m).2).lastCheck :=
        ih (IsRoadOpen ta st now f m).2
      _ = (analyzerRun ta ((now, f, m) :: rest) st).lastCheck := rfl

theorem cache_invariants_witness :
    (100 : Nat) ≤ (IsRoadOpen (some ⟨true, str "gemini-pro", [str "u"]⟩)
        ⟨100, false, str "d"⟩ 2000 1 (ModelResult.text (str "OPEN: clear"))).2.lastCheck ∧
    (IsRoadOpen none ⟨100, false, str "d"⟩ 2000 1 ModelResult.apiError).1.2.2.2 ≠ none ∧
    (IsRoadOpen none ⟨100, false, str "d"⟩ 2000 1 ModelResult.apiError).2
        = ⟨100, false, str "d"⟩ ∧
    (100 : Nat) ≤ (analyzerRun (some ⟨true, str "gemini-pro", [str "u"]⟩)
        [(2000, 1, ModelResult.text (str "OPEN: clear")), (2100, 0, ModelResult.apiError)]
        ⟨100, false, str "d"⟩).lastCheck :=
  ⟨(cache_invariants.1 (some ⟨true, str "gemini-pro", [str "u"]⟩)
      ⟨100, false, str "d"⟩ 2000 1 (ModelResult.text (str "OPEN: clear"))).1,
    by decide,
    (cache_invariants.1 none ⟨100, false, str "d"⟩ 2000 1 ModelResult.apiError).2.1
      (by decide),
    cache_invariants.2 (some ⟨true, str "gemini-pro", [str "u"]⟩)
      [(2000, 1, ModelResult.text (str "OPEN: clear")), (2100, 0, ModelResult.apiError)]
      ⟨100, false, str "d"⟩⟩

/-- C10: calling `IsRoadOpen` with a nil receiver, or on an analyzer whose
model client is nil, returns the "AI client not initialized" error with
zero-value results and an untouched cache (the function is total), and
the merger given such a call's result keeps the feed-derived record. -/
theorem nil_analyzer_returns_error :
    ∀ (st : AnalyzerCache) (now f : Nat) (m : ModelResult),
      IsRoadOpen none st now f m
          = ((false, [], 0, some (str "AI client not initialized")), st) ∧
      (∀ a : TrafficAnalyzer, a.clientConfigured = false →
        IsRoadOpen (some a) st now f m
          = ((false, [], 0, some (str "AI client not initialized")), st)) ∧
      (∀ (road : Str) (items : List FeedItem),
        floodResponse Override.None road (Except.ok items)
            (some (IsRoadOpen none st now f m).1)
          = Except.ok (feedTemplateData road items)) := by
  intro st now f m
  refine ⟨rfl, ?_, ?_⟩
  · intro a hc
    simp [IsRoadOpen, hc]
  · intro road items
    simp [IsRoadOpen, floodResponse]
    intro hcontra
    exact absurd hcontra (by decide)

theorem nil_analyzer_returns_error_witness :
    IsRoadOpen none ⟨7, true, str "d"⟩ 9 3 ModelResult.emptyResponse
        = ((false, [], 0, some (str "AI client not initialized")), ⟨7, true, str "d"⟩) ∧
    ((⟨false, str "m", []⟩ : TrafficAnalyzer).clientConfigured = false ∧
      IsRoadOpen (some ⟨false, str "m", []⟩) ⟨7, true, str "d"⟩ 9 3 ModelResult.emptyResponse
        = ((false, [], 0, some (str "AI client not initialized")), ⟨7, true, str "d"⟩)) ∧
    floodResponse Override.None (str "124th")
        (Except.ok [⟨str "Closed - 124th", str "l1", none⟩])
        (some (IsRoadOpen none ⟨7, true, str "d"⟩ 9 3 ModelResult.emptyResponse).1)
      = Except.ok (feedTemplateData (str "124th") [⟨str "Closed - 124th", str "l1", none⟩]) :=
  ⟨(nil_analyzer_returns_error ⟨7, true, str "d"⟩ 9 3 ModelResult.emptyResponse).1,
    ⟨rfl, (nil_analyzer_returns_error ⟨7, true, str "d"⟩ 9 3 ModelResult.emptyResponse).2.1
      ⟨false, str "m", []⟩ rfl⟩,
    (nil_analyzer_returns_error ⟨7, true, str "d"⟩ 9 3 ModelResult.emptyResponse).2.2
      (str "124th") [⟨str "Closed - 124th", str "l1", none⟩]⟩

end Flood
